import Mathlib

/-
Verification of the `pyweb.ui.elements` module
(src/pyscript.core/src/stdlib/pyweb/ui/elements.py).

The module wraps native browser elements.  The host element object model
(creation, attribute get/set, the inline style map, `append`, the `html`
setter) and the `JSProperty`/`js_property` descriptor mechanism come from
the `pyweb` package, which is outside the sources at hand; they are
modelled here from the specification of the capability surface.  The
element data model, the class registration (`_add_js_properties`), the
constructors (`ElementBase.__init__`, `TextElementBase.__init__`,
`grid.__init__`) and the declarative tag tables are translated directly
from the source file.
-/

namespace PyWebUI

/-- Primitive values that can flow through keyword arguments and content:
strings, integers and booleans (the shapes the claims exercise). -/
inductive PyPrim where
  | str (s : String)
  | int (n : Int)
  | bool (b : Bool)
  deriving DecidableEq

/-- Stringification as the host performs it when a primitive is assigned
to markup content (Python `str`, matching `True`/`False` for booleans). -/
def pyStr : PyPrim → String
  | .str s => s
  | .int n => toString n
  | .bool b => if b then "True" else "False"

/-- Ordered association list update with replace-in-place semantics:
Python dict assignment keeps the position of an existing key and appends
a new key at the end. -/
def assocSet {α : Type} : List (String × α) → String → α → List (String × α)
  | [], k, v => [(k, v)]
  | (k', v') :: rest, k, v =>
      if k' = k then (k, v) :: rest else (k', v') :: assocSet rest k v

/-- Ordered association list lookup (first match). -/
def assocGet {α : Type} : List (String × α) → String → Option α
  | [], _ => none
  | (k', v') :: rest, k => if k' = k then some v' else assocGet rest k

/-- State of a native element: the fixed tag, the attribute map written
through `setAttribute`, the inline style map, the appended children (of
an abstract child type: the module never inspects a child) and the
markup content set through the `html` property. -/
structure Elem (Child : Type) where
  tag : String
  attrs : List (String × PyPrim)
  styleProps : List (String × String)
  children : List Child
  html : Option String
  deriving DecidableEq

variable {Child : Type}

/-- Modelled from the spec: `createElement(tag)` of the host document
yields a fresh native element with the given tag and nothing else. -/
def createElement (tag : String) : Elem Child :=
  { tag := tag, attrs := [], styleProps := [], children := [], html := none }

/-- Modelled from the spec: `setAttribute(name, value)` on the native
element. -/
def setAttribute (e : Elem Child) (name : String) (v : PyPrim) : Elem Child :=
  { e with attrs := assocSet e.attrs name v }

/-- Modelled from the spec: `getAttribute(name)` on the native element. -/
def getAttribute (e : Elem Child) (name : String) : Option PyPrim :=
  assocGet e.attrs name

/-- Modelled from the spec: `element.style[key] = value`, one inline
style entry. -/
def setStyle (e : Elem Child) (k v : String) : Elem Child :=
  { e with styleProps := assocSet e.styleProps k v }

/-- Reading back one inline style entry. -/
def getStyle (e : Elem Child) (k : String) : Option String :=
  assocGet e.styleProps k

/-- Modelled from the spec: `element.append(child)` appends one child at
the end. -/
def appendChild (e : Elem Child) (c : Child) : Elem Child :=
  { e with children := e.children ++ [c] }

/-- Modelled from the spec: the `html` setter replaces the markup
content with the given string, verbatim. -/
def setHtml (e : Elem Child) (s : String) : Elem Child :=
  { e with html := some s }

/-- Modelled from the spec: a `JSProperty` (the `pyweb` descriptor) is a
pass-through property whose backing attribute name is fixed at
declaration time; `js_property(attr)` builds one. -/
structure JSProperty where
  attr : String
  deriving DecidableEq

/-- Modelled from the spec: `js_property(attr)` declares a property
backed by the native attribute `attr`. -/
def js_property (attr : String) : JSProperty := ⟨attr⟩

/-- Modelled from the spec: the declared property getter reads the
backing native attribute. -/
def JSProperty.get (p : JSProperty) (e : Elem Child) : Option PyPrim :=
  getAttribute e p.attr

/-- Modelled from the spec: the declared property setter writes the
backing native attribute. -/
def JSProperty.set (p : JSProperty) (e : Elem Child) (v : PyPrim) : Elem Child :=
  setAttribute e p.attr v

/-- The `JSProperty` entries of a class `__dict__`, in insertion order
(the other `__dict__` entries, such as `tag` and methods, are filtered
out by the `isinstance(attr, JSProperty)` test and never participate). -/
abbrev ClassDict := List (String × JSProperty)

/-- `GLOBAL_ATTRIBUTES` from the source: the global attributes every
registered tag class receives. -/
def GLOBAL_ATTRIBUTES : List String :=
  ["accesskey", "autocapitalize", "autofocus", "draggable", "enterkeyhint",
   "hidden", "id", "lang", "nonce", "part", "popover", "slot", "spellcheck",
   "tabindex", "title", "translate", "virtualkeyboardpolicy", "className"]

/-- `_add_js_properties(cls, *attrs)` from the source: first every
global attribute, then every specific attribute, is installed on the
class dict via `setattr(cls, attr, js_property(attr))`. -/
def _add_js_properties (d : ClassDict) (attrs : List String) : ClassDict :=
  let d1 := GLOBAL_ATTRIBUTES.foldl (fun d a => assocSet d a (js_property a)) d
  attrs.foldl (fun d a => assocSet d a (js_property a)) d1

/-- `ElementBase._init_properties(**kwargs)` from the source: walk the
class dict in order and, for each `JSProperty` entry whose name occurs
in `kwargs`, assign the kwarg value through the property setter. -/
def _init_properties (e : Elem Child) (cd : ClassDict)
    (kwargs : List (String × PyPrim)) : Elem Child :=
  cd.foldl (fun acc entry =>
    match assocGet kwargs entry.1 with
    | some v => entry.2.set acc v
    | none => acc) e

/-- Applying a style mapping key by key, in iteration order. -/
def applyStyle (e : Elem Child) (sts : List (String × String)) : Elem Child :=
  sts.foldl (fun acc kv => setStyle acc kv.1 kv.2) e

/-- `ElementBase.__init__(style=None, **kwargs)` from the source: create
the native element from the fixed tag, apply the style mapping if one
was given (the Python `if style:` guard also skips an empty mapping,
which coincides with folding over the empty list), then harvest the
keyword arguments.  `none` stands for the absent/None style argument. -/
def ElementBase.init (tag : String) (styleOpt : Option (List (String × String)))
    (kwargs : List (String × PyPrim)) (cd : ClassDict) : Elem Child :=
  let e := (createElement tag : Elem Child)
  let e := match styleOpt with
    | none => e
    | some sts => applyStyle e sts
  _init_properties e cd kwargs

/-- The possible shapes of the `content` constructor argument of
`TextElementBase`: a single element wrapper, a list of element wrappers,
Python `None`, or a primitive.  A Python value has exactly one of these
shapes, which the source discriminates with `isinstance` tests. -/
inductive Content (Child : Type) where
  | elem (c : Child)
  | list (cs : List Child)
  | none
  | prim (p : PyPrim)

/-- `TextElementBase.__init__(content=None, style=None, **kwargs)` from
the source: run the `ElementBase` construction, then dispatch on the
content: a single element is appended, a list is appended item by item,
`None` is ignored, anything else is assigned to `html`. -/
def TextElementBase.init (tag : String) (content : Content Child)
    (styleOpt : Option (List (String × String)))
    (kwargs : List (String × PyPrim)) (cd : ClassDict) : Elem Child :=
  let e := ElementBase.init tag styleOpt kwargs cd
  match content with
  | .elem c => appendChild e c
  | .list cs => cs.foldl appendChild e
  | .none => e
  | .prim p => setHtml e (pyStr p)

/-- A concrete tag class: its fixed `tag` string and its own class dict
of declared `JSProperty` entries. -/
structure TagClass where
  tag : String
  dict : ClassDict

/-- Specific attributes of `a` from the source. -/
def aAttrs : List String :=
  ["download", "href", "referrerpolicy", "rel", "target", "type"]

/-- Specific attributes of `button` from the source. -/
def buttonAttrs : List String :=
  ["autofocus", "disabled", "form", "formaction", "formenctype",
   "formmethod", "formnovalidate", "formtarget", "name", "type", "value"]

/-- Specific attributes of `img` from the source. -/
def imgAttrs : List String :=
  ["alt", "crossorigin", "decoding", "fetchpriority", "height", "ismap",
   "loading", "referrerpolicy", "sizes", "src", "width"]

/-- Specific attributes of `input_` from the source. -/
def inputAttrs : List String :=
  ["accept", "alt", "autofocus", "capture", "checked", "dirname",
   "disabled", "form", "formaction", "formenctype", "formmethod",
   "formnovalidate", "formtarget", "height", "list", "max", "maxlength",
   "min", "minlength", "multiple", "name", "pattern", "placeholder",
   "popovertarget", "popovertargetaction", "readonly", "required",
   "size", "src", "step", "type", "value", "width"]

/-- Specific attributes of `link` from the source. -/
def linkAttrs : List String :=
  ["as", "crossorigin", "disabled", "fetchpriority", "href",
   "imagesizes", "imagesrcset", "integrity", "media", "rel",
   "referrerpolicy", "sizes", "title", "type"]

/-- Specific attributes of `style` from the source. -/
def styleAttrs : List String := ["blocking", "media", "nonce", "title"]

/-- Specific attributes of `script` from the source (the manual
`async_` class attribute is separate). -/
def scriptAttrs : List String :=
  ["blocking", "crossorigin", "defer", "fetchpriority", "integrity",
   "nomodule", "nonce", "referrerpolicy", "src", "type"]

/-- The `a` tag class. -/
def a : TagClass := ⟨"a", _add_js_properties [] aAttrs⟩

/-- The `br` tag class: global attributes only. -/
def br : TagClass := ⟨"br", _add_js_properties [] []⟩

/-- The `button` tag class. -/
def button : TagClass := ⟨"button", _add_js_properties [] buttonAttrs⟩

/-- The `code` tag class: global attributes only. -/
def code : TagClass := ⟨"code", _add_js_properties [] []⟩

/-- The `div` tag class: global attributes only. -/
def div : TagClass := ⟨"div", _add_js_properties [] []⟩

/-- The `img` tag class. -/
def img : TagClass := ⟨"img", _add_js_properties [] imgAttrs⟩

/-- The `input_` tag class: the class name avoids the reserved keyword
`input`, the tag stays `"input"`. -/
def input_ : TagClass := ⟨"input", _add_js_properties [] inputAttrs⟩

/-- The `h1` tag class: global attributes only. -/
def h1 : TagClass := ⟨"h1", _add_js_properties [] []⟩

/-- The `h2` tag class: global attributes only. -/
def h2 : TagClass := ⟨"h2", _add_js_properties [] []⟩

/-- The `h3` tag class: global attributes only. -/
def h3 : TagClass := ⟨"h3", _add_js_properties [] []⟩

/-- The `h4` tag class: global attributes only. -/
def h4 : TagClass := ⟨"h4", _add_js_properties [] []⟩

/-- The `h5` tag class: global attributes only. -/
def h5 : TagClass := ⟨"h5", _add_js_properties [] []⟩

/-- The `h6` tag class: global attributes only. -/
def h6 : TagClass := ⟨"h6", _add_js_properties [] []⟩

/-- The `link` tag class. -/
def link : TagClass := ⟨"link", _add_js_properties [] linkAttrs⟩

/-- The `p` tag class: global attributes only. -/
def p : TagClass := ⟨"p", _add_js_properties [] []⟩

/-- The `pre` tag class: global attributes only. -/
def pre : TagClass := ⟨"pre", _add_js_properties [] []⟩

/-- The `style` tag class. -/
def style : TagClass := ⟨"style", _add_js_properties [] styleAttrs⟩

/-- The `script` tag class: the class body declares
`async_ = js_property("async")` before registration runs, so its class
dict starts with that entry. -/
def script : TagClass :=
  ⟨"script", _add_js_properties [("async_", js_property "async")] scriptAttrs⟩

/-- The `small` tag class: global attributes only. -/
def small : TagClass := ⟨"small", _add_js_properties [] []⟩

/-- The `strong` tag class: global attributes only. -/
def strong : TagClass := ⟨"strong", _add_js_properties [] []⟩

/-- The `grid` composite class: `_add_js_properties` is never invoked
on it, so its own class dict declares no `JSProperty` at all. -/
def grid : TagClass := ⟨"div", []⟩

/-- `grid.__init__(layout, content=None, gap=None, **kwargs)` from the
source: run the `TextElementBase` construction on tag `"div"` (a
`style` keyword argument passed by the caller is forwarded through
`**kwargs` into the `style` parameter, modelled by `styleOpt`), then
set `display` and `grid-template-columns` unconditionally and `gap`
only when the `gap` argument is not None. -/
def grid.init (layout : String) (content : Content Child) (gap : Option String)
    (styleOpt : Option (List (String × String)))
    (kwargs : List (String × PyPrim)) : Elem Child :=
  let e := TextElementBase.init "div" content styleOpt kwargs grid.dict
  let e := setStyle e "display" "grid"
  let e := setStyle e "grid-template-columns" layout
  match gap with
  | some g => setStyle e "gap" g
  | none => e

/-- The declared property names of a class dict, in order. -/
def declaredNames (cd : ClassDict) : List String := cd.map Prod.fst

/-- Two string lists holding the same set of names. -/
def sameSet (xs ys : List String) : Bool :=
  xs.all (fun x => ys.contains x) && ys.all (fun y => xs.contains y)

/-- Every declared property of the dict is backed by the attribute of
the same name. -/
def backingsMatch (cd : ClassDict) : Bool :=
  cd.all (fun q => q.2.attr == q.1)

/- Association list lemmas. -/

lemma assocGet_assocSet_self {α : Type} (d : List (String × α)) (k : String) (v : α) :
    assocGet (assocSet d k v) k = some v := by
  induction d with
  | nil => simp [assocSet, assocGet]
  | cons q rest ih =>
    by_cases h : q.1 = k
    · simp [assocSet, assocGet, h]
    · simp [assocSet, assocGet, h, ih]

lemma assocGet_assocSet_ne {α : Type} (d : List (String × α)) (k' k : String) (v : α)
    (h : k' ≠ k) : assocGet (assocSet d k' v) k = assocGet d k := by
  induction d with
  | nil => simp [assocSet, assocGet, h]
  | cons q rest ih =>
    by_cases hq : q.1 = k'
    · simp [assocSet, assocGet, hq, h]
    · by_cases hk : q.1 = k
      · simp [assocSet, assocGet, hq, hk, Ne.symm h]
      · simp [assocSet, assocGet, hq, hk, ih]

lemma assocGet_foldl_set_not_mem {α : Type} (attrs : List String)
    (g : String → α) (d : List (String × α)) (n : String) (h : n ∉ attrs) :
    assocGet (attrs.foldl (fun d x => assocSet d x (g x)) d) n = assocGet d n := by
  induction attrs generalizing d with
  | nil => rfl
  | cons x rest ih =>
    have hx : x ≠ n := fun hxn => h (hxn ▸ List.mem_cons_self x rest)
    have hrest : n ∉ rest := fun hr => h (List.mem_cons_of_mem x hr)
    rw [List.foldl_cons, ih _ hrest, assocGet_assocSet_ne _ _ _ _ hx]

lemma assocGet_foldl_set_mem {α : Type} (attrs : List String)
    (g : String → α) (d : List (String × α)) (n : String) (h : n ∈ attrs) :
    assocGet (attrs.foldl (fun d x => assocSet d x (g x)) d) n = some (g n) := by
  induction attrs generalizing d with
  | nil => cases h
  | cons x rest ih =>
    by_cases hr : n ∈ rest
    · rw [List.foldl_cons, ih _ hr]
    · have hx : x = n := by
        rcases List.mem_cons.mp h with h1 | h2
        · exact h1.symm
        · exact absurd h2 hr
      rw [List.foldl_cons, assocGet_foldl_set_not_mem _ _ _ _ hr, hx,
        assocGet_assocSet_self]

/- Structural lemmas about the constructors. -/

lemma applyStyle_spec (e : Elem Child) (sts : List (String × String)) :
    applyStyle e sts =
      { e with styleProps := sts.foldl (fun d kv => assocSet d kv.1 kv.2) e.styleProps } := by
  induction sts generalizing e with
  | nil => simp [applyStyle]
  | cons kv rest ih =>
    simp only [applyStyle, List.foldl_cons] at *
    rw [ih]
    rfl

lemma foldl_appendChild (cs : List Child) (e : Elem Child) :
    cs.foldl appendChild e = { e with children := e.children ++ cs } := by
  induction cs generalizing e with
  | nil => simp
  | cons c rest ih =>
    rw [List.foldl_cons, ih]
    simp [appendChild]

lemma _init_properties_cons (e : Elem Child) (q : String × JSProperty)
    (cd : ClassDict) (kwargs : List (String × PyPrim)) :
    _init_properties e (q :: cd) kwargs =
      _init_properties
        (match assocGet kwargs q.1 with
         | some v => q.2.set e v
         | none => e) cd kwargs := rfl

lemma _init_properties_tag (e : Elem Child) (cd : ClassDict)
    (kwargs : List (String × PyPrim)) :
    (_init_properties e cd kwargs).tag = e.tag := by
  induction cd generalizing e with
  | nil => rfl
  | cons q rest ih =>
    rw [_init_properties_cons]
    cases assocGet kwargs q.1 <;> simp [ih, JSProperty.set, setAttribute]

lemma _init_properties_styleProps (e : Elem Child) (cd : ClassDict)
    (kwargs : List (String × PyPrim)) :
    (_init_properties e cd kwargs).styleProps = e.styleProps := by
  induction cd generalizing e with
  | nil => rfl
  | cons q rest ih =>
    rw [_init_properties_cons]
    cases assocGet kwargs q.1 <;> simp [ih, JSProperty.set, setAttribute]

lemma _init_properties_children (e : Elem Child) (cd : ClassDict)
    (kwargs : List (String × PyPrim)) :
    (_init_properties e cd kwargs).children = e.children := by
  induction cd generalizing e with
  | nil => rfl
  | cons q rest ih =>
    rw [_init_properties_cons]
    cases assocGet kwargs q.1 <;> simp [ih, JSProperty.set, setAttribute]

lemma _init_properties_html (e : Elem Child) (cd : ClassDict)
    (kwargs : List (String × PyPrim)) :
    (_init_properties e cd kwargs).html = e.html := by
  induction cd generalizing e with
  | nil => rfl
  | cons q rest ih =>
    rw [_init_properties_cons]
    cases assocGet kwargs q.1 <;> simp [ih, JSProperty.set, setAttribute]

lemma _init_properties_getAttribute_not_backing (e : Elem Child) (cd : ClassDict)
    (kwargs : List (String × PyPrim)) (k : String)
    (hb : ∀ q ∈ cd, q.2.attr ≠ k) :
    getAttribute (_init_properties e cd kwargs) k = getAttribute e k := by
  induction cd generalizing e with
  | nil => rfl
  | cons q rest ih =>
    rw [_init_properties_cons]
    have hq : q.2.attr ≠ k := hb q (List.mem_cons_self q rest)
    have hrest : ∀ q' ∈ rest, q'.2.attr ≠ k :=
      fun q' hq' => hb q' (List.mem_cons_of_mem q hq')
    cases assocGet kwargs q.1 with
    | none => exact ih e hrest
    | some v =>
      rw [ih _ hrest]
      exact assocGet_assocSet_ne _ _ _ _ hq

lemma _init_properties_drop_unknown (e : Elem Child) (cd : ClassDict)
    (kwargs : List (String × PyPrim)) (k : String) (v : PyPrim)
    (hk : k ∉ declaredNames cd) :
    _init_properties e cd ((k, v) :: kwargs) = _init_properties e cd kwargs := by
  induction cd generalizing e with
  | nil => rfl
  | cons q rest ih =>
    have hq : k ≠ q.1 := by
      intro h
      exact hk (h ▸ List.mem_cons_self q.1 (declaredNames rest))
    have hrest : k ∉ declaredNames rest :=
      fun h => hk (List.mem_cons_of_mem q.1 h)
    rw [_init_properties_cons, _init_properties_cons]
    have hstep : assocGet ((k, v) :: kwargs) q.1 = assocGet kwargs q.1 := by
      simp [assocGet, hq]
    rw [hstep]
    cases assocGet kwargs q.1 <;> exact ih _ hrest

lemma _init_properties_assigns (e : Elem Child) (cd : ClassDict)
    (kwargs : List (String × PyPrim)) (n : String) (v : PyPrim)
    (hnodup : (declaredNames cd).Nodup)
    (hback : ∀ q ∈ cd, q.2.attr = q.1)
    (hn : (n, js_property n) ∈ cd)
    (hv : assocGet kwargs n = some v) :
    getAttribute (_init_properties e cd kwargs) n = some v := by
  induction cd generalizing e with
  | nil => cases hn
  | cons q rest ih =>
    have hnot : q.1 ∉ declaredNames rest := by
      have := hnodup
      simp [declaredNames] at this
      simpa [declaredNames] using this.1
    rcases List.mem_cons.mp hn with hhead | htail
    · have hq1 : q.1 = n := by rw [← hhead]
      rw [_init_properties_cons, hq1, hv]
      have hbrest : ∀ q' ∈ rest, q'.2.attr ≠ n := by
        intro q' hq'
        rw [hback q' (List.mem_cons_of_mem q hq')]
        intro heq
        exact hnot (hq1 ▸ heq ▸ List.mem_map_of_mem Prod.fst hq')
      rw [_init_properties_getAttribute_not_backing _ _ _ _ hbrest, ← hhead]
      exact assocGet_assocSet_self _ _ _
    · have hq1 : q.1 ≠ n := by
        intro heq
        exact hnot (heq ▸ List.mem_map_of_mem Prod.fst htail)
      rw [_init_properties_cons]
      have hrest : (declaredNames rest).Nodup := by
        have := hnodup
        simp [declaredNames] at this ⊢
        exact this.2
      have hbackrest : ∀ q' ∈ rest, q'.2.attr = q'.1 :=
        fun q' hq' => hback q' (List.mem_cons_of_mem q hq')
      cases assocGet kwargs q.1 <;> exact ih _ hrest hbackrest htail

/-- Claim C1: the `TextElementBase` constructor dispatches on `content`
into exactly one of four branches, by the shape of the value: a single
element wrapper is appended as the sole child, a list of wrappers is
appended item by item in list order, an absent/None content does
nothing, and any other value has its stringification assigned to the
element markup content `html`.  In particular a `div` built from a list
of two children holds exactly those two children in order, and a `div`
built from a single child holds exactly that child. -/
theorem textElementBase_content_dispatch {Child : Type} (tag : String)
    (styleOpt : Option (List (String × String))) (kwargs : List (String × PyPrim))
    (cd : ClassDict) (c cA cB : Child) (cs : List Child) (pr : PyPrim) :
    TextElementBase.init tag (Content.elem c) styleOpt kwargs cd
      = appendChild (ElementBase.init tag styleOpt kwargs cd) c
    ∧ TextElementBase.init tag (Content.list cs) styleOpt kwargs cd
      = { (ElementBase.init tag styleOpt kwargs cd : Elem Child) with
          children := (ElementBase.init tag styleOpt kwargs cd : Elem Child).children ++ cs }
    ∧ (TextElementBase.init tag (Content.none) styleOpt kwargs cd : Elem Child)
      = ElementBase.init tag styleOpt kwargs cd
    ∧ (TextElementBase.init tag (Content.prim pr) styleOpt kwargs cd : Elem Child)
      = setHtml (ElementBase.init tag styleOpt kwargs cd) (pyStr pr)
    ∧ (TextElementBase.init "div" (Content.list [cA, cB]) Option.none [] div.dict).children
      = [cA, cB]
    ∧ (TextElementBase.init "div" (Content.elem cA) Option.none [] div.dict).children
      = [cA] := by
  refine ⟨rfl, ?_, rfl, rfl, ?_, ?_⟩
  · exact foldl_appendChild cs (ElementBase.init tag styleOpt kwargs cd)
  · rfl
  · rfl

/-- Claim C10: only None counts as absent content.  The empty list takes
the list branch (no children appended, `html` never set), while falsy
non-list primitives such as the empty string, `0` and `False` take the
fallback branch and assign the markup content. -/
theorem textElementBase_content_edge_cases {Child : Type} (tag : String)
    (styleOpt : Option (List (String × String))) (kwargs : List (String × PyPrim))
    (cd : ClassDict) :
    TextElementBase.init tag (Content.list ([] : List Child)) styleOpt kwargs cd
      = ElementBase.init tag styleOpt kwargs cd
    ∧ (TextElementBase.init "div" (Content.list ([] : List Child)) Option.none [] div.dict).children
      = []
    ∧ (TextElementBase.init "div" (Content.list ([] : List Child)) Option.none [] div.dict).html
      = Option.none
    ∧ (TextElementBase.init "div" (Content.prim (PyPrim.str "")) Option.none [] div.dict
        : Elem Child).html = some ""
    ∧ (TextElementBase.init "div" (Content.prim (PyPrim.int 0)) Option.none [] div.dict
        : Elem Child).html = some "0"
    ∧ (TextElementBase.init "div" (Content.prim (PyPrim.bool false)) Option.none [] div.dict
        : Elem Child).html = some "False"
    ∧ (TextElementBase.init "div" (Content.prim (PyPrim.str "")) Option.none [] div.dict
        : Elem Child).children = [] := by
  exact ⟨rfl, rfl, rfl, rfl, rfl, rfl, rfl⟩

/-- Claim C3: the `ElementBase` constructor creates one native element
with the fixed tag, applies the style mapping key by key in iteration
order, and assigns every option whose name is a declared property
through that property setter (stated for a class dict whose declared
names are distinct and back attributes of the same name, which holds
for every registered tag class). -/
theorem elementBase_init_correct {Child : Type} (tag : String)
    (sts : List (String × String)) (kwargs : List (String × PyPrim))
    (cd : ClassDict) (n : String) (v : PyPrim)
    (hnodup : (declaredNames cd).Nodup)
    (hback : ∀ q ∈ cd, q.2.attr = q.1)
    (hn : (n, js_property n) ∈ cd)
    (hv : assocGet kwargs n = some v) :
    (ElementBase.init tag (some sts) kwargs cd : Elem Child).tag = tag
    ∧ (ElementBase.init tag (some sts) kwargs cd : Elem Child).styleProps
      = sts.foldl (fun d kv => assocSet d kv.1 kv.2) []
    ∧ getAttribute (ElementBase.init tag (some sts) kwargs cd : Elem Child) n
      = some v := by
  have he : (ElementBase.init tag (some sts) kwargs cd : Elem Child)
      = _init_properties (applyStyle (createElement tag) sts) cd kwargs := rfl
  refine ⟨?_, ?_, ?_⟩
  · rw [he, _init_properties_tag, applyStyle_spec]
    rfl
  · rw [he, _init_properties_styleProps, applyStyle_spec]
    rfl
  · rw [he]
    exact _init_properties_assigns _ _ _ _ _ hnodup hback hn hv

/-- Witness for C3: a `div` built with id `"x"` and style color `"red"`
has tag `"div"`, reads id back as `"x"` and reads the style color back
as `"red"`. -/
theorem elementBase_init_correct_witness :
    (ElementBase.init "div" (some [("color", "red")]) [("id", PyPrim.str "x")] div.dict
      : Elem Nat).tag = "div"
    ∧ getAttribute (ElementBase.init "div" (some [("color", "red")])
        [("id", PyPrim.str "x")] div.dict : Elem Nat) "id" = some (PyPrim.str "x")
    ∧ getStyle (ElementBase.init "div" (some [("color", "red")])
        [("id", PyPrim.str "x")] div.dict : Elem Nat) "color" = some "red" := by
  obtain ⟨h1, h2, h3⟩ :=
    @elementBase_init_correct Nat "div" [("color", "red")]
      [("id", PyPrim.str "x")] div.dict "id" (PyPrim.str "x")
      (by decide) (by decide) (by decide) rfl
  refine ⟨h1, h3, ?_⟩
  show assocGet (ElementBase.init "div" (some [("color", "red")])
    [("id", PyPrim.str "x")] div.dict : Elem Nat).styleProps "color" = some "red"
  rw [show (ElementBase.init "div" (some [("color", "red")])
      [("id", PyPrim.str "x")] div.dict : Elem Nat).styleProps
      = [("color", "red")].foldl (fun d kv => assocSet d kv.1 kv.2) [] from h2]
  rfl

/-- Claim C4: a keyword argument whose name is not a declared property
of the class is silently ignored: the construction (a total function
here, so it cannot raise) yields exactly the element built without that
argument, and no attribute of that name appears on the element (stated
for names that are also not the backing attribute of any declared
property, which for every registered class coincides with the declared
names apart from the `async_`/`async` alias). -/
theorem unknown_kwargs_silently_ignored {Child : Type} (tag : String)
    (styleOpt : Option (List (String × String))) (kwargs : List (String × PyPrim))
    (cd : ClassDict) (k : String) (v : PyPrim)
    (hk : k ∉ declaredNames cd)
    (hb : ∀ q ∈ cd, q.2.attr ≠ k) :
    ElementBase.init tag styleOpt ((k, v) :: kwargs) cd
      = (ElementBase.init tag styleOpt kwargs cd : Elem Child)
    ∧ getAttribute (ElementBase.init tag styleOpt ((k, v) :: kwargs) cd : Elem Child) k
      = Option.none := by
  constructor
  · cases styleOpt with
    | none => exact _init_properties_drop_unknown _ _ _ _ _ hk
    | some sts => exact _init_properties_drop_unknown _ _ _ _ _ hk
  · cases styleOpt with
    | none =>
      rw [show (ElementBase.init tag Option.none ((k, v) :: kwargs) cd : Elem Child)
          = _init_properties (createElement tag) cd ((k, v) :: kwargs) from rfl,
        _init_properties_getAttribute_not_backing _ _ _ _ hb]
      rfl
    | some sts =>
      rw [show (ElementBase.init tag (some sts) ((k, v) :: kwargs) cd : Elem Child)
          = _init_properties (applyStyle (createElement tag) sts) cd ((k, v) :: kwargs) from rfl,
        _init_properties_getAttribute_not_backing _ _ _ _ hb, applyStyle_spec]
      rfl

/-- Witness for C4: a `div` built with an `unrecognized` keyword
argument equals the `div` built without it, and exposes no
`unrecognized` attribute. -/
theorem unknown_kwargs_silently_ignored_witness :
    ElementBase.init "div" Option.none [("unrecognized", PyPrim.str "value")] div.dict
      = (ElementBase.init "div" Option.none [] div.dict : Elem Nat)
    ∧ getAttribute (ElementBase.init "div" Option.none
        [("unrecognized", PyPrim.str "value")] div.dict : Elem Nat) "unrecognized"
      = Option.none :=
  @unknown_kwargs_silently_ignored Nat "div" Option.none [] div.dict
    "unrecognized" (PyPrim.str "value") (by decide) (by decide)

/-- Claim C2: every concrete tag class declares exactly the global
attributes unioned with its specific attributes, each backed by the
attribute of the same name; the exceptions are the `async_` property of
`script`, which backs the `async` attribute, and `input_`, which is
only a class-name alias (its tag stays `"input"`).  In particular `br`,
`code`, `h1` through `h6`, `p`, `pre`, `small` and `strong` declare
exactly the global attributes. -/
theorem declared_properties_registry :
    (sameSet (declaredNames br.dict) GLOBAL_ATTRIBUTES
      && sameSet (declaredNames code.dict) GLOBAL_ATTRIBUTES
      && sameSet (declaredNames div.dict) GLOBAL_ATTRIBUTES
      && sameSet (declaredNames h1.dict) GLOBAL_ATTRIBUTES
      && sameSet (declaredNames h2.dict) GLOBAL_ATTRIBUTES
      && sameSet (declaredNames h3.dict) GLOBAL_ATTRIBUTES
      && sameSet (declaredNames h4.dict) GLOBAL_ATTRIBUTES
      && sameSet (declaredNames h5.dict) GLOBAL_ATTRIBUTES
      && sameSet (declaredNames h6.dict) GLOBAL_ATTRIBUTES
      && sameSet (declaredNames p.dict) GLOBAL_ATTRIBUTES
      && sameSet (declaredNames pre.dict) GLOBAL_ATTRIBUTES
      && sameSet (declaredNames small.dict) GLOBAL_ATTRIBUTES
      && sameSet (declaredNames strong.dict) GLOBAL_ATTRIBUTES) = true
    ∧ (sameSet (declaredNames a.dict) (GLOBAL_ATTRIBUTES ++ aAttrs)
      && sameSet (declaredNames button.dict) (GLOBAL_ATTRIBUTES ++ buttonAttrs)
      && sameSet (declaredNames img.dict) (GLOBAL_ATTRIBUTES ++ imgAttrs)
      && sameSet (declaredNames input_.dict) (GLOBAL_ATTRIBUTES ++ inputAttrs)
      && sameSet (declaredNames link.dict) (GLOBAL_ATTRIBUTES ++ linkAttrs)
      && sameSet (declaredNames style.dict) (GLOBAL_ATTRIBUTES ++ styleAttrs)) = true
    ∧ (backingsMatch br.dict && backingsMatch code.dict && backingsMatch div.dict
      && backingsMatch h1.dict && backingsMatch h2.dict && backingsMatch h3.dict
      && backingsMatch h4.dict && backingsMatch h5.dict && backingsMatch h6.dict
      && backingsMatch p.dict && backingsMatch pre.dict && backingsMatch small.dict
      && backingsMatch strong.dict && backingsMatch a.dict && backingsMatch button.dict
      && backingsMatch img.dict && backingsMatch input_.dict && backingsMatch link.dict
      && backingsMatch style.dict) = true
    ∧ sameSet (declaredNames script.dict)
        (("async_" :: GLOBAL_ATTRIBUTES) ++ scriptAttrs) = true
    ∧ script.dict.all
        (fun q => if q.1 = "async_" then q.2.attr == "async" else q.2.attr == q.1) = true
    ∧ input_.tag = "input" := by
  exact ⟨rfl, rfl, rfl, rfl, rfl, rfl⟩

lemma grid_base_styleProps {Child : Type} (content : Content Child)
    (kwargs : List (String × PyPrim)) :
    (TextElementBase.init "div" content Option.none kwargs grid.dict : Elem Child).styleProps
      = [] := by
  cases content with
  | elem c => rfl
  | list cs =>
    rw [show (TextElementBase.init "div" (Content.list cs) Option.none kwargs grid.dict
        : Elem Child)
        = cs.foldl appendChild (ElementBase.init "div" Option.none kwargs grid.dict) from rfl,
      foldl_appendChild]
    rfl
  | none => rfl
  | prim pr => rfl

lemma grid_base_attrs {Child : Type} (content : Content Child)
    (kwargs : List (String × PyPrim)) :
    (TextElementBase.init "div" content Option.none kwargs grid.dict : Elem Child).attrs
      = [] := by
  cases content with
  | elem c => rfl
  | list cs =>
    rw [show (TextElementBase.init "div" (Content.list cs) Option.none kwargs grid.dict
        : Elem Child)
        = cs.foldl appendChild (ElementBase.init "div" Option.none kwargs grid.dict) from rfl,
      foldl_appendChild]
    rfl
  | none => rfl
  | prim pr => rfl

/-- Claim C5: `grid(layout, content, gap)` builds a `div`-tagged
`TextElementBase`, then unconditionally sets the `display` style to
`"grid"` and `grid-template-columns` to `layout`; the `gap` style reads
back exactly the `gap` argument — it is set when `gap` is provided and
left unset when `gap` is omitted (None). -/
theorem grid_init_styles {Child : Type} (layout : String) (content : Content Child)
    (gap : Option String) (kwargs : List (String × PyPrim)) :
    (grid.init layout content gap Option.none kwargs : Elem Child).tag = "div"
    ∧ getStyle (grid.init layout content gap Option.none kwargs : Elem Child) "display"
      = some "grid"
    ∧ getStyle (grid.init layout content gap Option.none kwargs : Elem Child)
        "grid-template-columns" = some layout
    ∧ getStyle (grid.init layout content gap Option.none kwargs : Elem Child) "gap"
      = gap := by
  have hsp : (grid.init layout content gap Option.none kwargs : Elem Child).styleProps
      = (match gap with
         | some g =>
            assocSet (assocSet (assocSet [] "display" "grid")
              "grid-template-columns" layout) "gap" g
         | Option.none =>
            assocSet (assocSet [] "display" "grid") "grid-template-columns" layout) := by
    cases gap <;>
      simp [grid.init, setStyle, grid_base_styleProps content kwargs]
  have htag : (grid.init layout content gap Option.none kwargs : Elem Child).tag
      = (TextElementBase.init "div" content Option.none kwargs grid.dict
          : Elem Child).tag := by
    cases gap <;> rfl
  refine ⟨?_, ?_, ?_, ?_⟩
  · rw [htag]
    cases content with
    | elem c => rfl
    | list cs =>
      rw [show (TextElementBase.init "div" (Content.list cs) Option.none kwargs grid.dict
          : Elem Child)
          = cs.foldl appendChild (ElementBase.init "div" Option.none kwargs grid.dict)
          from rfl, foldl_appendChild]
      rfl
    | none => rfl
    | prim pr => rfl
  · show assocGet (grid.init layout content gap Option.none kwargs
        : Elem Child).styleProps "display" = some "grid"
    rw [hsp]
    cases gap <;> rfl
  · show assocGet (grid.init layout content gap Option.none kwargs
        : Elem Child).styleProps "grid-template-columns" = some layout
    rw [hsp]
    cases gap <;> rfl
  · show assocGet (grid.init layout content gap Option.none kwargs
        : Elem Child).styleProps "gap" = gap
    rw [hsp]
    cases gap <;> rfl

/-- Claim C9: `_init_properties` inspects only the class's own
`__dict__`, and `_add_js_properties` is never invoked on `grid`, whose
dict therefore declares nothing; every keyword argument to `grid` is
ignored, including global attribute names such as `id` that every
registered tag class honours (contrast conjunct: `div` assigns `id`). -/
theorem grid_ignores_all_kwargs {Child : Type} (layout : String)
    (content : Content Child) (gap : Option String)
    (styleOpt : Option (List (String × String)))
    (kwargs : List (String × PyPrim)) :
    grid.dict = []
    ∧ grid.init layout content gap styleOpt kwargs
      = (grid.init layout content gap styleOpt [] : Elem Child)
    ∧ getAttribute (grid.init layout content gap Option.none kwargs : Elem Child) "id"
      = Option.none
    ∧ getAttribute (ElementBase.init "div" Option.none [("id", PyPrim.str "x")] div.dict
        : Elem Nat) "id" = some (PyPrim.str "x") := by
  have hgattrs : (grid.init layout content gap Option.none kwargs : Elem Child).attrs
      = (TextElementBase.init "div" content Option.none kwargs grid.dict
          : Elem Child).attrs := by
    cases gap <;> rfl
  refine ⟨rfl, ?_, ?_, rfl⟩
  · cases styleOpt <;> rfl
  · show assocGet (grid.init layout content gap Option.none kwargs
        : Elem Child).attrs "id" = Option.none
    rw [hgattrs, grid_base_attrs content kwargs]
    rfl

/-- Claim C6: reserved-keyword collisions are handled by aliases whose
backing attribute is the original name: the `async_` property of
`script` is backed by the `async` attribute (writing through it stores
the native `async` attribute and no `async_` attribute), no property
named `async` is declared, and the `input_` class still creates
elements with tag `"input"`. -/
theorem reserved_keyword_aliases {Child : Type} (v : PyPrim) :
    assocGet script.dict "async_" = some (js_property "async")
    ∧ ((declaredNames script.dict).contains "async") = false
    ∧ getAttribute (ElementBase.init "script" Option.none [("async_", v)] script.dict
        : Elem Child) "async" = some v
    ∧ getAttribute (ElementBase.init "script" Option.none [("async_", v)] script.dict
        : Elem Child) "async_" = Option.none
    ∧ script.tag = "script"
    ∧ input_.tag = "input"
    ∧ (ElementBase.init input_.tag Option.none [] input_.dict : Elem Child).tag
      = "input" := by
  exact ⟨rfl, rfl, rfl, rfl, rfl, rfl, rfl⟩

/-- Claim C7: registration is additive with last-write-wins semantics:
a specific attribute that repeats a global name (such as `autofocus` on
`button` or `title` on `link`) overwrites the global declaration in
place with the same backing attribute and leaves no duplicate entry,
and running the registration helper a second time on the same class
dict reproduces it unchanged. -/
theorem registration_shadow_overwrite (d : ClassDict) (attrs : List String)
    (n : String) (hn : n ∈ attrs) :
    assocGet (_add_js_properties d attrs) n = some (js_property n)
    ∧ _add_js_properties (_add_js_properties [] buttonAttrs) buttonAttrs
      = _add_js_properties [] buttonAttrs
    ∧ assocGet button.dict "autofocus" = some (js_property "autofocus")
    ∧ ("autofocus" ∈ GLOBAL_ATTRIBUTES ∧ "autofocus" ∈ buttonAttrs)
    ∧ assocGet link.dict "title" = some (js_property "title")
    ∧ ("title" ∈ GLOBAL_ATTRIBUTES ∧ "title" ∈ linkAttrs)
    ∧ (declaredNames button.dict).Nodup
    ∧ (declaredNames link.dict).Nodup := by
  refine ⟨?_, rfl, rfl, by decide, rfl, by decide, by decide, by decide⟩
  show assocGet (attrs.foldl (fun d x => assocSet d x (js_property x))
    (GLOBAL_ATTRIBUTES.foldl (fun d x => assocSet d x (js_property x)) d)) n
    = some (js_property n)
  exact assocGet_foldl_set_mem attrs js_property _ n hn

/-- Witness for C7: the specific `autofocus` of `button` shadows the
global one, last write winning. -/
theorem registration_shadow_overwrite_witness :
    assocGet (_add_js_properties [] buttonAttrs) "autofocus"
      = some (js_property "autofocus") :=
  (registration_shadow_overwrite [] buttonAttrs "autofocus" (by decide)).1

/-- Claim C8: writing a declared property and reading it back returns
exactly the written value — generally for every property and element,
and concretely for the boolean `checked` and the string `value`
properties of an `input`-tagged wrapper (both declared on `input_`). -/
theorem declared_property_roundtrip {Child : Type} (e : Elem Child)
    (q : JSProperty) (v : PyPrim) :
    q.get (q.set e v) = some v
    ∧ assocGet input_.dict "checked" = some (js_property "checked")
    ∧ assocGet input_.dict "value" = some (js_property "value")
    ∧ (js_property "checked").get
        ((js_property "checked").set
          (ElementBase.init "input" Option.none [] input_.dict : Elem Child)
          (PyPrim.bool true))
      = some (PyPrim.bool true)
    ∧ (js_property "value").get
        ((js_property "value").set
          (ElementBase.init "input" Option.none [] input_.dict : Elem Child)
          (PyPrim.str "abc"))
      = some (PyPrim.str "abc") := by
  refine ⟨?_, rfl, rfl, rfl, rfl⟩
  exact assocGet_assocSet_self e.attrs q.attr v

end PyWebUI
